import Mathlib

/-!
Shallow embedding of `src/bluesky_bot_scheduled.py` (a single-shot Bluesky
posting bot) and verification of its specification claims.

Modelling conventions:
* A scheduled-post JSON object is a `ScheduledPost`; fields that may be
  absent in the JSON are `Option`s, and `extra` holds any further key/value
  pairs of the object (never touched by the program).
* The three backing files are a `Files` record; `none` models an absent file.
* File writes performed during a run are recorded as `WriteEvent`s, so that
  "no file was written" is expressible, not just "contents unchanged".
* Python string operations are modelled on the character list `String.data`
  so that all definitions reduce in the kernel.
* The network (authenticate / send_post) and `random.choice` are external:
  an `Env` supplies their outcomes (`authOk`, `sendOk`, `rand`) together
  with today's month/day and the `datetime.now().isoformat()` stamp.
-/

/-- One entry of `scheduled_posts.json`.  `date`, `text`, `posted`,
`posted_at` model `post.get(...)` with the defaults used by the code;
`extra` models any remaining JSON keys, which the code never modifies. -/
structure ScheduledPost where
  date : Option String
  text : Option String
  posted : Option Bool
  posted_at : Option String
  extra : List (String × String)
deriving DecidableEq, Repr

/-- The persistent state the bot reads and writes: `scheduled_posts.json`
(parsed), `posts.txt` (raw text) and the `recent_posts` list of
`bot_state.json`.  `none` = the file is absent. -/
structure Files where
  scheduled : Option (List ScheduledPost)
  posts_txt : Option String
  state : Option (List String)
deriving DecidableEq, Repr

/-- A file write performed during a run, with the contents written. -/
inductive WriteEvent where
  | scheduledWrite (contents : List ScheduledPost)
  | stateWrite (contents : List String)
deriving DecidableEq, Repr

/-- Outcome of one `post_next` run: the return value, the texts passed to
`client.send_post` (in order), the resulting file state, and the writes. -/
structure RunResult where
  success : Bool
  sends : List String
  files : Files
  writes : List WriteEvent
deriving DecidableEq, Repr

/-- External inputs of a run: today's month and day (from `datetime.now()`),
the `isoformat()` timestamp, whether `authenticate()` succeeds, whether
`client.send_post` succeeds, and the index drawn by `random.choice`. -/
structure Env where
  month : Nat
  day : Nat
  now : String
  authOk : Bool
  sendOk : Bool
  rand : Nat
deriving DecidableEq, Repr

/-- Python `s[n:]` on a string, via the underlying character list. -/
def pyDrop (s : String) (n : Nat) : String :=
  String.mk (s.data.drop n)

/-- Python `len(s)`. -/
def strLen (s : String) : Nat :=
  s.data.length

/-- The whitespace characters stripped by Python `str.strip()`
(ASCII fragment: space, tab, newline, vertical tab, form feed, return). -/
def isPySpace (c : Char) : Bool :=
  c == ' ' || c == '\t' || c == '\n' || c == '\x0b' || c == '\x0c' || c == '\r'

/-- Python `str.strip()`: remove leading and trailing whitespace. -/
def pyStrip (s : String) : String :=
  String.mk (((s.data.dropWhile isPySpace).reverse.dropWhile isPySpace).reverse)

/-- Split a character list at newline characters; models iterating a text
file line by line (each chunk is one line, without its terminator). -/
def splitLines : List Char → List (List Char)
  | [] => [[]]
  | c :: cs =>
    if c = '\n' then
      [] :: splitLines cs
    else
      match splitLines cs with
      | [] => [[c]]
      | h :: t => (c :: h) :: t

/-- The decimal digit character of `n % 10`. -/
def digitChar (n : Nat) : Char :=
  match n % 10 with
  | 0 => '0' | 1 => '1' | 2 => '2' | 3 => '3' | 4 => '4'
  | 5 => '5' | 6 => '6' | 7 => '7' | 8 => '8' | _ => '9'

/-- Model of `today.strftime('%m-%d')`: zero-padded two-digit month and day joined
by a dash (months and days are below 100). -/
def monthDayString (m d : Nat) : String :=
  String.mk [digitChar (m / 10), digitChar m, '-', digitChar (d / 10), digitChar d]

/-- Model of `BlueskyBot.load_regular_posts`: each line of `posts.txt`, stripped,
keeping only those that are non-empty after stripping; `[]` if the file is
absent. -/
def load_regular_posts (file : Option String) : List String :=
  match file with
  | none => []
  | some s => ((splitLines s.data).map (fun l => pyStrip (String.mk l))).filter
      (fun p => decide (p ≠ ""))

/-- Model of `BlueskyBot.save_state`: keep only the last 220 recent posts
(`recent_posts[-220:]`). -/
def save_state (recent_posts : List String) : List String :=
  recent_posts.drop (recent_posts.length - 220)

/-- The reset applied to one entry on January 1st: if `post.get('posted',
False)` then set `posted = False` and delete `posted_at`, else leave the
entry alone. -/
def resetPost (p : ScheduledPost) : ScheduledPost :=
  if p.posted.getD false then
    { p with posted := some false, posted_at := none }
  else
    p

/-- The loop body of `reset_annual_posts_if_new_year` over the whole list. -/
def resetPass (posts : List ScheduledPost) : List ScheduledPost :=
  posts.map resetPost

/-- Value of `reset_count` after the loop: the number of entries with a true
`posted` flag. -/
def resetCount (posts : List ScheduledPost) : Nat :=
  (posts.filter (fun p => p.posted.getD false)).length

/-- Model of `BlueskyBot.reset_annual_posts_if_new_year`: a no-op unless
month = 1 and day = 1; on January 1st clear every true `posted` flag and
rewrite the file iff at least one flag was cleared.  Returns the file
state afterwards and the writes performed. -/
def reset_annual_posts_if_new_year (month day : Nat) (fs : Files) :
    Files × List WriteEvent :=
  if month = 1 ∧ day = 1 then
    let posts := fs.scheduled.getD []
    if resetCount posts > 0 then
      let newPosts := resetPass posts
      ({ fs with scheduled := some newPosts }, [WriteEvent.scheduledWrite newPosts])
    else
      (fs, [])
  else
    (fs, [])

/-- The match test of `find_scheduled_post_for_today` for one entry:
the date string has length ≥ 10, its `[5:]` slice equals today's
month-day key, and the entry is not already posted. -/
def isDueMatch (todayMD : String) (p : ScheduledPost) : Bool :=
  decide (strLen (p.date.getD "") ≥ 10) &&
    (pyDrop (p.date.getD "") 5 == todayMD) &&
    !(p.posted.getD false)

/-- Model of `BlueskyBot.find_scheduled_post_for_today` (over already-loaded posts):
walk the list in order; skip entries whose date is shorter than 10
characters or whose month-day slice differs from today's; skip matching
entries already posted; return the first matching unposted entry. -/
def find_scheduled_post_for_today (posts : List ScheduledPost)
    (todayMD : String) : Option ScheduledPost :=
  match posts with
  | [] => none
  | p :: rest =>
    let post_date := p.date.getD ""
    if strLen post_date ≥ 10 then
      if pyDrop post_date 5 = todayMD then
        if p.posted.getD false then
          find_scheduled_post_for_today rest todayMD
        else
          some p
      else
        find_scheduled_post_for_today rest todayMD
    else
      find_scheduled_post_for_today rest todayMD

/-- The loop body of `mark_scheduled_post_as_sent` for one entry: every
entry whose date has length ≥ 10 and whose `[5:]` slice equals the given
month-day key gets `posted = True` and a fresh `posted_at` stamp. -/
def markPost (post_month_day now : String) (p : ScheduledPost) : ScheduledPost :=
  let post_date := p.date.getD ""
  if strLen post_date ≥ 10 ∧ pyDrop post_date 5 = post_month_day then
    { p with posted := some true, posted_at := some now }
  else
    p

/-- Model of `BlueskyBot.mark_scheduled_post_as_sent` applied to loaded posts:
mark every entry matching the month-day key; the file is then rewritten
unconditionally. -/
def mark_scheduled_post_as_sent (post_month_day now : String)
    (posts : List ScheduledPost) : List ScheduledPost :=
  posts.map (markPost post_month_day now)

/-- The filter of line 242: pool entries not present in the recent-posts
history (exact string comparison). -/
def available_posts_of (regular_posts recent_posts : List String) : List String :=
  regular_posts.filter (fun p => decide (p ∉ recent_posts))

/-- The generic-rotation tail of `post_next` (lines 229-269): load the
pool, fail if it is empty, remove recently used posts, reset the pool and
clear the history when everything was recently used, pick one post, and on
a successful send append it to the history and save.  `fs1`/`w1` are the
file state and writes accumulated before this point. -/
def generic_rotation (env : Env) (fs1 : Files) (w1 : List WriteEvent) :
    RunResult :=
  let regular_posts := load_regular_posts fs1.posts_txt
  if regular_posts = [] then
    ⟨false, [], fs1, w1⟩
  else
    let recent0 := fs1.state.getD []
    let avail0 := available_posts_of regular_posts recent0
    let pair :=
      if avail0 = [] then (regular_posts, ([] : List String))
      else (avail0, recent0)
    let available_posts := pair.1
    let recent_posts := pair.2
    let post_text := available_posts.getD (env.rand % available_posts.length) ""
    if env.authOk then
      if env.sendOk then
        let newState := save_state (recent_posts ++ [post_text])
        ⟨true, [post_text], { fs1 with state := some newState },
          w1 ++ [WriteEvent.stateWrite newState]⟩
      else
        ⟨false, [post_text], fs1, w1⟩
    else
      ⟨false, [], fs1, w1⟩

/-- Model of `BlueskyBot.post_next`: annual reset, then the scheduled-post branch if
`find_scheduled_post_for_today` found one, else generic rotation. -/
def post_next (env : Env) (fs : Files) : RunResult :=
  let step1 := reset_annual_posts_if_new_year env.month env.day fs
  let fs1 := step1.1
  let w1 := step1.2
  let todayMD := monthDayString env.month env.day
  match find_scheduled_post_for_today (fs1.scheduled.getD []) todayMD with
  | some scheduled_post =>
    let post_text := scheduled_post.text.getD ""
    let post_date := scheduled_post.date.getD ""
    let post_month_day := if strLen post_date ≥ 10 then pyDrop post_date 5 else ""
    if post_text = "" then
      ⟨false, [], fs1, w1⟩
    else if env.authOk then
      if env.sendOk then
        let newSched :=
          mark_scheduled_post_as_sent post_month_day env.now (fs1.scheduled.getD [])
        ⟨true, [post_text], { fs1 with scheduled := some newSched },
          w1 ++ [WriteEvent.scheduledWrite newSched]⟩
      else
        ⟨false, [post_text], fs1, w1⟩
    else
      ⟨false, [], fs1, w1⟩
  | none => generic_rotation env fs1 w1

/-- Model of `main`: exit 1 when a credential is missing or empty, otherwise exit
with 0 iff `post_next` succeeded, with `post_next`'s writes. -/
def main_run (handle password : Option String) (env : Env) (fs : Files) :
    Nat × Files × List WriteEvent :=
  if handle.getD "" = "" ∨ password.getD "" = "" then
    (1, fs, [])
  else
    let r := post_next env fs
    (if r.success then 0 else 1, r.files, r.writes)

/-- The `post_text = random.choice(available_posts)` of the non-exhausted
rotation path, as a function of the random index `env.rand`. -/
def chosen_generic (env : Env) (fs : Files) : String :=
  (available_posts_of (load_regular_posts fs.posts_txt) (fs.state.getD [])).getD
    (env.rand % (available_posts_of (load_regular_posts fs.posts_txt)
      (fs.state.getD [])).length) ""

/-! ### Helper lemmas, shared across the claim theorems below -/

/-- Lemma: `find_scheduled_post_for_today` is the first-match search with
predicate `isDueMatch`. -/
theorem find_eq_findFirst (md : String) (posts : List ScheduledPost) :
    find_scheduled_post_for_today posts md = posts.find? (isDueMatch md) := by
  induction posts with
  | nil => rfl
  | cons p rest ih =>
    by_cases h1 : strLen (p.date.getD "") ≥ 10
    · by_cases h2 : pyDrop (p.date.getD "") 5 = md
      · by_cases h3 : p.posted.getD false
        · simp [find_scheduled_post_for_today, List.find?, isDueMatch, h1, h2, h3, ih]
        · simp [find_scheduled_post_for_today, List.find?, isDueMatch, h1, h2, h3]
      · have h2b : (pyDrop (p.date.getD "") 5 == md) = false := by
          simp [h2]
        simp [find_scheduled_post_for_today, List.find?, isDueMatch, h1, h2, h2b, ih]
    · simp [find_scheduled_post_for_today, List.find?, isDueMatch, h1, ih]

theorem resetPost_of_not_posted {p : ScheduledPost}
    (h : p.posted.getD false = false) : resetPost p = p := by
  simp [resetPost, h]

theorem resetPass_of_count_zero {posts : List ScheduledPost}
    (h : resetCount posts = 0) : resetPass posts = posts := by
  unfold resetCount at h
  rw [List.length_eq_zero] at h
  unfold resetPass
  induction posts with
  | nil => rfl
  | cons p rest ih =>
    rw [List.filter_cons] at h
    by_cases hp : p.posted.getD false
    · simp [hp] at h
    · simp only [hp] at h
      simp only [List.map_cons, resetPost_of_not_posted (Bool.eq_false_iff.mpr hp),
        ih h]

theorem resetCount_resetPass (posts : List ScheduledPost) :
    resetCount (resetPass posts) = 0 := by
  unfold resetCount resetPass
  rw [List.length_eq_zero, List.filter_eq_nil_iff]
  intro p hp
  rw [List.mem_map] at hp
  obtain ⟨q, _, rfl⟩ := hp
  by_cases hq : q.posted.getD false <;> simp [resetPost, hq]

theorem resetCount_eq_zero_iff (posts : List ScheduledPost) :
    resetCount posts = 0 ↔ ∀ p ∈ posts, p.posted.getD false = false := by
  unfold resetCount
  rw [List.length_eq_zero, List.filter_eq_nil_iff]
  constructor
  · intro h p hp
    exact Bool.eq_false_iff.mpr (h p hp)
  · intro h p hp
    exact Bool.eq_false_iff.mp (h p hp)

/-- The annual reset never touches `posts.txt` or the recency state file. -/
theorem reset_preserves_other_files (m d : Nat) (fs : Files) :
    (reset_annual_posts_if_new_year m d fs).1.posts_txt = fs.posts_txt ∧
    (reset_annual_posts_if_new_year m d fs).1.state = fs.state := by
  unfold reset_annual_posts_if_new_year
  by_cases h : m = 1 ∧ d = 1
  · by_cases hc : resetCount (fs.scheduled.getD []) > 0 <;> simp [h, hc]
  · simp [h]

theorem reset_of_not_jan1 {m d : Nat} (fs : Files) (h : ¬(m = 1 ∧ d = 1)) :
    reset_annual_posts_if_new_year m d fs = (fs, []) := by
  unfold reset_annual_posts_if_new_year
  simp [h]

theorem save_state_of_le {l : List String} (h : l.length ≤ 220) :
    save_state l = l := by
  unfold save_state
  rw [Nat.sub_eq_zero_of_le h, List.drop_zero]

theorem save_state_singleton (x : String) : save_state [x] = [x] :=
  save_state_of_le (by simp)

theorem reset_jan1_scheduled (fs : Files) :
    (reset_annual_posts_if_new_year 1 1 fs).1.scheduled.getD []
      = resetPass (fs.scheduled.getD []) := by
  by_cases hc : resetCount (fs.scheduled.getD []) > 0
  · simp [reset_annual_posts_if_new_year, hc]
  · have h0 : resetCount (fs.scheduled.getD []) = 0 := by omega
    simp [reset_annual_posts_if_new_year, hc, resetPass_of_count_zero h0]

theorem reset_jan1_of_count_zero {gs : Files}
    (h : resetCount (gs.scheduled.getD []) = 0) :
    reset_annual_posts_if_new_year 1 1 gs = (gs, []) := by
  unfold reset_annual_posts_if_new_year
  simp [h]

/-! ### Claim theorems -/

/-- C5: `save_state` persists exactly the last 220 entries of its input, in
order and most-recent-last: the saved list has length `min (length input)
220`, is a suffix of the input (the input is a prefix followed by the saved
list), equals the whole input when that is short enough, and in particular
never exceeds 220 entries. -/
theorem save_state_keeps_last_220 (recent : List String) :
    (save_state recent).length = min recent.length 220 ∧
    recent.take (recent.length - 220) ++ save_state recent = recent ∧
    (recent.length ≤ 220 → save_state recent = recent) ∧
    (save_state recent).length ≤ 220 := by
  refine ⟨?_, List.take_append_drop _ recent, fun h => save_state_of_le h, ?_⟩
  · unfold save_state
    rw [List.length_drop]
    omega
  · unfold save_state
    rw [List.length_drop]
    omega

/-- C5 witness: the theorem applied to the concrete history `["a", "b"]`,
with the short-input hypothesis discharged there. -/
theorem save_state_keeps_last_220_witness :
    (["a", "b"] : List String).length ≤ 220 ∧ save_state ["a", "b"] = ["a", "b"] :=
  ⟨by decide, (save_state_keeps_last_220 ["a", "b"]).2.2.1 (by decide)⟩

/-- C3: the selector walks the Date-Anchored entries in stored order and
returns the first one whose month-day key equals today's key and whose
`posted` flag is false (matching but already-posted entries are skipped,
since `isDueMatch` requires the flag to be false); and when no unposted
match exists, `post_next` falls through to the generic-rotation branch. -/
theorem selector_first_unposted_match (posts : List ScheduledPost)
    (md : String) (env : Env) (fs : Files) :
    find_scheduled_post_for_today posts md = posts.find? (isDueMatch md) ∧
    (find_scheduled_post_for_today
        ((reset_annual_posts_if_new_year env.month env.day fs).1.scheduled.getD [])
        (monthDayString env.month env.day) = none →
      post_next env fs =
        generic_rotation env
          (reset_annual_posts_if_new_year env.month env.day fs).1
          (reset_annual_posts_if_new_year env.month env.day fs).2) := by
  constructor
  · exact find_eq_findFirst md posts
  · intro h
    unfold post_next
    simp only [h]

/-- C3 witness: with one already-posted Christmas entry and today = Dec 25,
the selector finds nothing and `post_next` is the generic rotation. -/
theorem selector_first_unposted_match_witness :
    post_next (⟨12, 25, "T0", true, true, 0⟩ : Env)
        (⟨some [⟨some "2023-12-25", some "xmas", some true, some "T1", []⟩],
          none, none⟩ : Files) =
      generic_rotation (⟨12, 25, "T0", true, true, 0⟩ : Env)
        (reset_annual_posts_if_new_year 12 25
          (⟨some [⟨some "2023-12-25", some "xmas", some true, some "T1", []⟩],
            none, none⟩ : Files)).1
        (reset_annual_posts_if_new_year 12 25
          (⟨some [⟨some "2023-12-25", some "xmas", some true, some "T1", []⟩],
            none, none⟩ : Files)).2 :=
  (selector_first_unposted_match [] "x" ⟨12, 25, "T0", true, true, 0⟩
    ⟨some [⟨some "2023-12-25", some "xmas", some true, some "T1", []⟩],
      none, none⟩).2 (by decide)

/-- C4: the annual reset is a no-op (returns the files unchanged, writes
nothing) unless month = 1 and day = 1; on January 1st it sets
`posted = false` and removes `posted_at` on every posted entry, leaves
already-unposted entries completely untouched, writes the file iff at
least one entry was posted, and running it again on the resulting state is
a no-op that writes nothing. -/
theorem annual_reset_spec (m d : Nat) (fs : Files) :
    (¬(m = 1 ∧ d = 1) → reset_annual_posts_if_new_year m d fs = (fs, [])) ∧
    (∀ p : ScheduledPost, p.posted.getD false = true →
      resetPost p = { p with posted := some false, posted_at := none }) ∧
    (∀ p : ScheduledPost, p.posted.getD false = false → resetPost p = p) ∧
    (reset_annual_posts_if_new_year 1 1 fs).1.scheduled.getD []
      = resetPass (fs.scheduled.getD []) ∧
    ((reset_annual_posts_if_new_year 1 1 fs).2 = []
      ↔ ∀ p ∈ fs.scheduled.getD [], p.posted.getD false = false) ∧
    reset_annual_posts_if_new_year 1 1 (reset_annual_posts_if_new_year 1 1 fs).1
      = ((reset_annual_posts_if_new_year 1 1 fs).1, []) := by
  refine ⟨fun h => reset_of_not_jan1 fs h, ?_,
    fun p hp => resetPost_of_not_posted hp, reset_jan1_scheduled fs, ?_, ?_⟩
  · intro p hp
    simp [resetPost, hp]
  · constructor
    · intro h2
      rw [← resetCount_eq_zero_iff]
      by_contra hne
      have hc : resetCount (fs.scheduled.getD []) > 0 := Nat.pos_of_ne_zero hne
      simp [reset_annual_posts_if_new_year, hc] at h2
    · intro hall
      have h0 := (resetCount_eq_zero_iff (fs.scheduled.getD [])).mpr hall
      simp [reset_annual_posts_if_new_year, h0]
  · refine reset_jan1_of_count_zero ?_
    rw [reset_jan1_scheduled]
    exact resetCount_resetPass _

/-- C4 witness: off-date no-op at March 4th, and the reset of a concrete
posted entry, both obtained from the theorem at concrete inputs. -/
theorem annual_reset_spec_witness :
    reset_annual_posts_if_new_year 3 4
        (⟨some [⟨some "2023-01-01", some "hny", some true, some "T1", []⟩],
          none, none⟩ : Files) =
      ((⟨some [⟨some "2023-01-01", some "hny", some true, some "T1", []⟩],
          none, none⟩ : Files), []) ∧
    resetPost ⟨some "2023-01-01", some "hny", some true, some "T1", []⟩ =
      ⟨some "2023-01-01", some "hny", some false, none, []⟩ :=
  ⟨(annual_reset_spec 3 4
      ⟨some [⟨some "2023-01-01", some "hny", some true, some "T1", []⟩],
        none, none⟩).1 (by decide),
   (annual_reset_spec 3 4
      ⟨some [⟨some "2023-01-01", some "hny", some true, some "T1", []⟩],
        none, none⟩).2.1 ⟨some "2023-01-01", some "hny", some true, some "T1", []⟩
      (by decide)⟩

/-- C1 (amended): under a dispatch failure (authentication or send), no
state is mutated after selection: the files and writes of the whole run
are exactly those left by the pre-selection annual reset, and on any date
other than January 1st the files are identical to the pre-run contents
with nothing written at all.  (On January 1st the annual reset itself may
rewrite the Date-Anchored file before selection, regardless of the
dispatch outcome.) -/
theorem dispatch_failure_preserves_state (env : Env) (fs : Files)
    (hfail : env.authOk = false ∨ env.sendOk = false) :
    (post_next env fs).files = (reset_annual_posts_if_new_year env.month env.day fs).1 ∧
    (post_next env fs).writes = (reset_annual_posts_if_new_year env.month env.day fs).2 ∧
    (¬(env.month = 1 ∧ env.day = 1) →
      (post_next env fs).files = fs ∧ (post_next env fs).writes = []) := by
  have key : (post_next env fs).files
        = (reset_annual_posts_if_new_year env.month env.day fs).1 ∧
      (post_next env fs).writes
        = (reset_annual_posts_if_new_year env.month env.day fs).2 := by
    unfold post_next generic_rotation
    rcases hfail with h | h <;> simp only [h] <;> (repeat' split) <;> simp_all
  refine ⟨key.1, key.2, fun hnj => ?_⟩
  rw [key.1, key.2, reset_of_not_jan1 fs hnj]
  exact ⟨rfl, rfl⟩

/-- C1 witness: a July 8th run with a due scheduled entry whose
authentication fails leaves the files untouched and writes nothing. -/
theorem dispatch_failure_preserves_state_witness :
    (post_next (⟨7, 8, "T0", false, true, 0⟩ : Env)
        (⟨some [⟨some "2023-07-08", some "hello", some false, none, []⟩],
          some "a\n", none⟩ : Files)).files =
      (⟨some [⟨some "2023-07-08", some "hello", some false, none, []⟩],
        some "a\n", none⟩ : Files) ∧
    (post_next (⟨7, 8, "T0", false, true, 0⟩ : Env)
        (⟨some [⟨some "2023-07-08", some "hello", some false, none, []⟩],
          some "a\n", none⟩ : Files)).writes = [] :=
  (dispatch_failure_preserves_state ⟨7, 8, "T0", false, true, 0⟩
    ⟨some [⟨some "2023-07-08", some "hello", some false, none, []⟩],
      some "a\n", none⟩ (Or.inl rfl)).2.2 (by decide)

/-- C1 counterexample: on January 1st, with a posted "01-01" entry, the
annual reset rewrites the Date-Anchored file and then the (now unposted)
entry is selected as today's candidate, authentication fails — yet the
persisted scheduled file differs from its pre-run contents, refuting the
claim's "for every calendar date including January 1st". -/
theorem dispatch_failure_jan1_counterexample :
    (find_scheduled_post_for_today
        ((reset_annual_posts_if_new_year 1 1
          (⟨some [⟨some "2023-01-01", some "hny", some true, some "T1", []⟩],
            none, none⟩ : Files)).1.scheduled.getD [])
        (monthDayString 1 1)).isSome = true ∧
    (⟨1, 1, "T2", false, true, 0⟩ : Env).authOk = false ∧
    (post_next ⟨1, 1, "T2", false, true, 0⟩
        ⟨some [⟨some "2023-01-01", some "hny", some true, some "T1", []⟩],
          none, none⟩).success = false ∧
    (post_next ⟨1, 1, "T2", false, true, 0⟩
        ⟨some [⟨some "2023-01-01", some "hny", some true, some "T1", []⟩],
          none, none⟩).sends = [] ∧
    (post_next ⟨1, 1, "T2", false, true, 0⟩
        ⟨some [⟨some "2023-01-01", some "hny", some true, some "T1", []⟩],
          none, none⟩).files.scheduled ≠
      some [⟨some "2023-01-01", some "hny", some true, some "T1", []⟩] ∧
    (post_next ⟨1, 1, "T2", false, true, 0⟩
        ⟨some [⟨some "2023-01-01", some "hny", some true, some "T1", []⟩],
          none, none⟩).writes ≠ [] := by decide

/-- C2 (amended): after a successful send of the selected Date-Anchored
entry, the file is rewritten with every entry mapped through `markPost`:
the selected entry gets `posted = true` and `posted_at` stamped, every
entry whose month-day key differs from the selected one (or whose date is
shorter than 10 characters) is written back with all fields unchanged —
but entries sharing the selected entry's month-day key are marked too,
not only the selected one. -/
theorem successful_send_marks_by_month_day (env : Env) (fs : Files)
    (sp : ScheduledPost)
    (hfind : find_scheduled_post_for_today
        ((reset_annual_posts_if_new_year env.month env.day fs).1.scheduled.getD [])
        (monthDayString env.month env.day) = some sp)
    (htext : sp.text.getD "" ≠ "")
    (hauth : env.authOk = true) (hsend : env.sendOk = true) :
    (post_next env fs).success = true ∧
    (post_next env fs).sends = [sp.text.getD ""] ∧
    (post_next env fs).files.scheduled =
      some (((reset_annual_posts_if_new_year env.month env.day fs).1.scheduled.getD []).map
        (markPost (pyDrop (sp.date.getD "") 5) env.now)) ∧
    sp ∈ (reset_annual_posts_if_new_year env.month env.day fs).1.scheduled.getD [] ∧
    markPost (pyDrop (sp.date.getD "") 5) env.now sp =
      { sp with posted := some true, posted_at := some env.now } ∧
    (∀ q : ScheduledPost,
      ¬(strLen (q.date.getD "") ≥ 10 ∧
          pyDrop (q.date.getD "") 5 = pyDrop (sp.date.getD "") 5) →
      markPost (pyDrop (sp.date.getD "") 5) env.now q = q) := by
  have hfind2 := hfind
  rw [find_eq_findFirst] at hfind2
  have hmem := List.mem_of_find?_eq_some hfind2
  have hmatch := List.find?_some hfind2
  simp only [isDueMatch, Bool.and_eq_true, decide_eq_true_eq, beq_iff_eq,
    Bool.not_eq_true'] at hmatch
  obtain ⟨⟨hlen, hmdeq⟩, hposted⟩ := hmatch
  refine ⟨?_, ?_, ?_, hmem, ?_, ?_⟩
  · unfold post_next
    simp only [hfind]
    simp [htext, hauth, hsend, hlen]
  · unfold post_next
    simp only [hfind]
    simp [htext, hauth, hsend, hlen]
  · unfold post_next
    simp only [hfind]
    simp [htext, hauth, hsend, hlen, mark_scheduled_post_as_sent]
  · simp [markPost, hlen]
  · intro q hq
    simp only [markPost]
    rw [if_neg hq]

/-- C2 witness: the theorem at a concrete December 25th run with a single
due entry, which ends marked `posted` with its timestamp stamped. -/
theorem successful_send_marks_by_month_day_witness :
    (post_next (⟨12, 25, "NOW", true, true, 0⟩ : Env)
        (⟨some [⟨some "2023-12-25", some "xmas", some false, none, []⟩],
          none, none⟩ : Files)).success = true ∧
    (post_next (⟨12, 25, "NOW", true, true, 0⟩ : Env)
        (⟨some [⟨some "2023-12-25", some "xmas", some false, none, []⟩],
          none, none⟩ : Files)).files.scheduled =
      some [⟨some "2023-12-25", some "xmas", some true, some "NOW", []⟩] := by
  have h := successful_send_marks_by_month_day ⟨12, 25, "NOW", true, true, 0⟩
    ⟨some [⟨some "2023-12-25", some "xmas", some false, none, []⟩], none, none⟩
    ⟨some "2023-12-25", some "xmas", some false, none, []⟩
    (by decide) (by decide) rfl rfl
  refine ⟨h.1, ?_⟩
  rw [h.2.2.1]
  decide

/-- C2 counterexample: two distinct unposted entries share the month-day
key "12-25"; the first one is selected, yet after the successful send the
second (non-selected) entry has been mutated as well, refuting "every
other entry is written back with all of its fields unchanged". -/
theorem successful_send_marks_by_month_day_counterexample :
    find_scheduled_post_for_today
        [⟨some "2023-12-25", some "A", some false, none, []⟩,
          ⟨some "2024-12-25", some "B", some false, none, []⟩] (monthDayString 12 25) =
      some ⟨some "2023-12-25", some "A", some false, none, []⟩ ∧
    (post_next ⟨12, 25, "NOW", true, true, 0⟩
        ⟨some [⟨some "2023-12-25", some "A", some false, none, []⟩,
          ⟨some "2024-12-25", some "B", some false, none, []⟩], none, none⟩).success
      = true ∧
    ((post_next ⟨12, 25, "NOW", true, true, 0⟩
        ⟨some [⟨some "2023-12-25", some "A", some false, none, []⟩,
          ⟨some "2024-12-25", some "B", some false, none, []⟩],
          none, none⟩).files.scheduled.getD []).getD 1 ⟨none, none, none, none, []⟩
      ≠ ⟨some "2024-12-25", some "B", some false, none, []⟩ := by decide

/-- C6: when the pool is non-empty and every pool entry occurs in the
recency history, the available set computed by the rotation is empty, so
the run resets to the full pool and clears the history; after a successful
send the persisted history is exactly the single chosen text, which is a
member of the pool. -/
theorem exhausted_pool_resets (env : Env) (fs : Files)
    (hauth : env.authOk = true) (hsend : env.sendOk = true)
    (hfind : find_scheduled_post_for_today
        ((reset_annual_posts_if_new_year env.month env.day fs).1.scheduled.getD [])
        (monthDayString env.month env.day) = none)
    (hpool : load_regular_posts fs.posts_txt ≠ [])
    (hsub : ∀ p ∈ load_regular_posts fs.posts_txt, p ∈ fs.state.getD []) :
    available_posts_of (load_regular_posts fs.posts_txt) (fs.state.getD []) = [] ∧
    (post_next env fs).success = true ∧
    (post_next env fs).sends =
      [(load_regular_posts fs.posts_txt).getD
        (env.rand % (load_regular_posts fs.posts_txt).length) ""] ∧
    (post_next env fs).files.state =
      some [(load_regular_posts fs.posts_txt).getD
        (env.rand % (load_regular_posts fs.posts_txt).length) ""] ∧
    (load_regular_posts fs.posts_txt).getD
        (env.rand % (load_regular_posts fs.posts_txt).length) ""
      ∈ load_regular_posts fs.posts_txt := by
  have hp := reset_preserves_other_files env.month env.day fs
  have havail : available_posts_of (load_regular_posts fs.posts_txt)
      (fs.state.getD []) = [] := by
    unfold available_posts_of
    rw [List.filter_eq_nil_iff]
    intro p hpm
    simp [hsub p hpm]
  have hmem : (load_regular_posts fs.posts_txt).getD
      (env.rand % (load_regular_posts fs.posts_txt).length) ""
      ∈ load_regular_posts fs.posts_txt := by
    have hlt : env.rand % (load_regular_posts fs.posts_txt).length
        < (load_regular_posts fs.posts_txt).length :=
      Nat.mod_lt _ (List.length_pos.mpr hpool)
    rw [List.getD_eq_getElem _ _ hlt]
    exact List.getElem_mem hlt
  refine ⟨havail, ?_, ?_, ?_, hmem⟩
  all_goals
    unfold post_next
    simp only [hfind]
    unfold generic_rotation
    simp only [hp.1, hp.2]
    simp [hpool, havail, hauth, hsend, save_state_singleton]

/-- C6 witness: pool {a, b} entirely contained in the history; the run
succeeds and the persisted history is exactly the chosen text "b". -/
theorem exhausted_pool_resets_witness :
    (post_next (⟨6, 1, "T", true, true, 1⟩ : Env)
        (⟨none, some "a\nb\n", some ["a", "b"]⟩ : Files)).success = true ∧
    (post_next (⟨6, 1, "T", true, true, 1⟩ : Env)
        (⟨none, some "a\nb\n", some ["a", "b"]⟩ : Files)).files.state =
      some ["b"] := by
  have h := exhausted_pool_resets ⟨6, 1, "T", true, true, 1⟩
    ⟨none, some "a\nb\n", some ["a", "b"]⟩ rfl rfl (by decide) (by decide) (by decide)
  refine ⟨h.2.1, ?_⟩
  rw [h.2.2.2.1]
  decide

/-- C7: when some pool entry is not in the history, the chosen generic
post is a pool member absent from the history, and after a successful send
the persisted history is the old history with the chosen text appended
(through the 220-cap `save_state`; verbatim appended when the history was
below the cap). -/
theorem fresh_pick_appends (env : Env) (fs : Files)
    (hauth : env.authOk = true) (hsend : env.sendOk = true)
    (hfind : find_scheduled_post_for_today
        ((reset_annual_posts_if_new_year env.month env.day fs).1.scheduled.getD [])
        (monthDayString env.month env.day) = none)
    (havail : available_posts_of (load_regular_posts fs.posts_txt)
        (fs.state.getD []) ≠ []) :
    chosen_generic env fs ∈ load_regular_posts fs.posts_txt ∧
    chosen_generic env fs ∉ fs.state.getD [] ∧
    (post_next env fs).success = true ∧
    (post_next env fs).sends = [chosen_generic env fs] ∧
    (post_next env fs).files.state =
      some (save_state (fs.state.getD [] ++ [chosen_generic env fs])) ∧
    ((fs.state.getD []).length < 220 →
      (post_next env fs).files.state =
        some (fs.state.getD [] ++ [chosen_generic env fs])) := by
  have hp := reset_preserves_other_files env.month env.day fs
  have hpool : load_regular_posts fs.posts_txt ≠ [] := by
    intro h
    apply havail
    unfold available_posts_of
    rw [h]
    rfl
  have hlt : env.rand % (available_posts_of (load_regular_posts fs.posts_txt)
        (fs.state.getD [])).length
      < (available_posts_of (load_regular_posts fs.posts_txt)
        (fs.state.getD [])).length :=
    Nat.mod_lt _ (List.length_pos.mpr havail)
  have hchosen : chosen_generic env fs ∈ available_posts_of
      (load_regular_posts fs.posts_txt) (fs.state.getD []) := by
    unfold chosen_generic
    rw [List.getD_eq_getElem _ _ hlt]
    exact List.getElem_mem hlt
  have hchosen2 : chosen_generic env fs ∈ (load_regular_posts fs.posts_txt).filter
      (fun p => decide (p ∉ fs.state.getD [])) := by
    unfold available_posts_of at hchosen
    exact hchosen
  have hmf := List.mem_filter.mp hchosen2
  have hnotH : chosen_generic env fs ∉ fs.state.getD [] := of_decide_eq_true hmf.2
  have hrest : (post_next env fs).success = true ∧
      (post_next env fs).sends = [chosen_generic env fs] ∧
      (post_next env fs).files.state =
        some (save_state (fs.state.getD [] ++ [chosen_generic env fs])) := by
    refine ⟨?_, ?_, ?_⟩
    all_goals
      unfold post_next
      simp only [hfind]
      unfold generic_rotation
      simp only [hp.1, hp.2]
      simp [hpool, havail, hauth, hsend, chosen_generic]
  refine ⟨hmf.1, hnotH, hrest.1, hrest.2.1, hrest.2.2, fun hlen => ?_⟩
  have hcap : (fs.state.getD [] ++ [chosen_generic env fs]).length ≤ 220 := by
    rw [List.length_append]
    simp only [List.length_cons, List.length_nil]
    omega
  rw [hrest.2.2, save_state_of_le hcap]

/-- C7 witness: the spec scenario pool = {a, b, c}, history = [a, b]; the
only candidate "c" is chosen and the history becomes [a, b, c]. -/
theorem fresh_pick_appends_witness :
    (post_next (⟨6, 2, "T", true, true, 0⟩ : Env)
        (⟨none, some "a\nb\nc\n", some ["a", "b"]⟩ : Files)).success = true ∧
    (post_next (⟨6, 2, "T", true, true, 0⟩ : Env)
        (⟨none, some "a\nb\nc\n", some ["a", "b"]⟩ : Files)).files.state =
      some ["a", "b", "c"] := by
  have h := fresh_pick_appends ⟨6, 2, "T", true, true, 0⟩
    ⟨none, some "a\nb\nc\n", some ["a", "b"]⟩ rfl rfl (by decide) (by decide)
  refine ⟨h.2.2.1, ?_⟩
  rw [h.2.2.2.2.2 (by decide)]
  decide

/-- C8 (amended): with no matching unposted entry for today and an empty
generic pool the run fails — nothing is sent, `main` exits 1 — and the
only possible write is the January-1st annual-reset rewrite, which happens
before selection; on every other date nothing at all is written and the
files are identical to the pre-run contents. -/
theorem no_content_run_fails (env : Env) (fs : Files)
    (handle password : Option String)
    (hfind : find_scheduled_post_for_today
        ((reset_annual_posts_if_new_year env.month env.day fs).1.scheduled.getD [])
        (monthDayString env.month env.day) = none)
    (hpool : load_regular_posts fs.posts_txt = []) :
    (post_next env fs).success = false ∧
    (post_next env fs).sends = [] ∧
    (post_next env fs).files = (reset_annual_posts_if_new_year env.month env.day fs).1 ∧
    (post_next env fs).writes = (reset_annual_posts_if_new_year env.month env.day fs).2 ∧
    (¬(env.month = 1 ∧ env.day = 1) →
      (post_next env fs).files = fs ∧ (post_next env fs).writes = []) ∧
    (main_run handle password env fs).1 = 1 := by
  have hp := reset_preserves_other_files env.month env.day fs
  have hrun : post_next env fs =
      ⟨false, [], (reset_annual_posts_if_new_year env.month env.day fs).1,
        (reset_annual_posts_if_new_year env.month env.day fs).2⟩ := by
    unfold post_next
    simp only [hfind]
    unfold generic_rotation
    simp only [hp.1]
    simp [hpool]
  refine ⟨by rw [hrun], by rw [hrun], by rw [hrun], by rw [hrun], fun hnj => ?_, ?_⟩
  · rw [hrun, reset_of_not_jan1 fs hnj]
    exact ⟨rfl, rfl⟩
  · unfold main_run
    by_cases hc : handle.getD "" = "" ∨ password.getD "" = ""
    · simp [hc]
    · simp [hc, hrun]

/-- C8 witness: the spec scenario — no scheduled entries, no pool file —
on an ordinary date: the run fails, writes nothing, and exits 1. -/
theorem no_content_run_fails_witness :
    (post_next (⟨5, 6, "T", true, true, 0⟩ : Env)
        (⟨none, none, none⟩ : Files)).success = false ∧
    (post_next (⟨5, 6, "T", true, true, 0⟩ : Env)
        (⟨none, none, none⟩ : Files)).writes = [] ∧
    (main_run (some "h") (some "p") (⟨5, 6, "T", true, true, 0⟩ : Env)
        (⟨none, none, none⟩ : Files)).1 = 1 := by
  have h := no_content_run_fails ⟨5, 6, "T", true, true, 0⟩ ⟨none, none, none⟩
    (some "h") (some "p") (by decide) (by decide)
  exact ⟨h.1, (h.2.2.2.2.1 (by decide)).2, h.2.2.2.2.2⟩

/-- C8 counterexample: on January 1st, with one posted entry dated
"2023-03-04" and no pool file, there is no matching unposted entry for
today and the generic pool is empty — the run does fail with nothing sent,
but the annual reset has rewritten the Date-Anchored file, refuting "no
files are written". -/
theorem no_content_run_fails_counterexample :
    find_scheduled_post_for_today
        ((reset_annual_posts_if_new_year 1 1
          (⟨some [⟨some "2023-03-04", some "x", some true, some "T1", []⟩],
            none, none⟩ : Files)).1.scheduled.getD [])
        (monthDayString 1 1) = none ∧
    load_regular_posts (none : Option String) = [] ∧
    (post_next ⟨1, 1, "T", true, true, 0⟩
        ⟨some [⟨some "2023-03-04", some "x", some true, some "T1", []⟩],
          none, none⟩).success = false ∧
    (post_next ⟨1, 1, "T", true, true, 0⟩
        ⟨some [⟨some "2023-03-04", some "x", some true, some "T1", []⟩],
          none, none⟩).sends = [] ∧
    (post_next ⟨1, 1, "T", true, true, 0⟩
        ⟨some [⟨some "2023-03-04", some "x", some true, some "T1", []⟩],
          none, none⟩).writes ≠ [] := by decide

/-- C9: loading the generic pool yields, in file order, one (stripped)
post per line whose stripped form is non-empty — blank and whitespace-only
lines are skipped — and yields the empty sequence when the file is absent.
`loadGenericPoolSpec` is the specification's reading (filter the non-blank
lines, then one post per kept line); it agrees with the code's
`load_regular_posts`, and a concrete mixed file evaluates as specified. -/
theorem load_regular_posts_spec :
    load_regular_posts none = [] ∧
    (∀ s : String, load_regular_posts (some s) =
      ((splitLines s.data).filter
        (fun l => decide (pyStrip (String.mk l) ≠ ""))).map
        (fun l => pyStrip (String.mk l))) ∧
    load_regular_posts (some "one\n\n   \ntwo\nthree\n") = ["one", "two", "three"] := by
  refine ⟨rfl, fun s => ?_, by decide⟩
  show ((splitLines s.data).map (fun l => pyStrip (String.mk l))).filter
      (fun p => decide (p ≠ "")) = _
  rw [List.filter_map]
  rfl

/-- C10 (amended): when today's first unposted matching entry has an empty
or missing `text`, the run fails without sending anything and without
falling through to generic rotation: the files and writes are exactly
those left by the pre-selection annual reset, and on every date other than
January 1st nothing is written and the files equal the pre-run contents. -/
theorem scheduled_empty_text_fails (env : Env) (fs : Files)
    (sp : ScheduledPost)
    (hfind : find_scheduled_post_for_today
        ((reset_annual_posts_if_new_year env.month env.day fs).1.scheduled.getD [])
        (monthDayString env.month env.day) = some sp)
    (htext : sp.text.getD "" = "") :
    (post_next env fs).success = false ∧
    (post_next env fs).sends = [] ∧
    (post_next env fs).files = (reset_annual_posts_if_new_year env.month env.day fs).1 ∧
    (post_next env fs).writes = (reset_annual_posts_if_new_year env.month env.day fs).2 ∧
    (¬(env.month = 1 ∧ env.day = 1) →
      (post_next env fs).files = fs ∧ (post_next env fs).writes = []) := by
  have hrun : post_next env fs =
      ⟨false, [], (reset_annual_posts_if_new_year env.month env.day fs).1,
        (reset_annual_posts_if_new_year env.month env.day fs).2⟩ := by
    unfold post_next
    simp only [hfind]
    simp [htext]
  refine ⟨by rw [hrun], by rw [hrun], by rw [hrun], by rw [hrun], fun hnj => ?_⟩
  rw [hrun, reset_of_not_jan1 fs hnj]
  exact ⟨rfl, rfl⟩

/-- C10 witness: a February 2nd run whose due entry has no `text` field
fails, sends nothing, writes nothing, and leaves the files as they were —
even though the generic pool is non-empty. -/
theorem scheduled_empty_text_fails_witness :
    (post_next (⟨2, 2, "T", true, true, 0⟩ : Env)
        (⟨some [⟨some "2023-02-02", none, some false, none, []⟩],
          some "a\n", none⟩ : Files)).success = false ∧
    (post_next (⟨2, 2, "T", true, true, 0⟩ : Env)
        (⟨some [⟨some "2023-02-02", none, some false, none, []⟩],
          some "a\n", none⟩ : Files)).sends = [] ∧
    (post_next (⟨2, 2, "T", true, true, 0⟩ : Env)
        (⟨some [⟨some "2023-02-02", none, some false, none, []⟩],
          some "a\n", none⟩ : Files)).files =
      (⟨some [⟨some "2023-02-02", none, some false, none, []⟩],
        some "a\n", none⟩ : Files) := by
  have h := scheduled_empty_text_fails ⟨2, 2, "T", true, true, 0⟩
    ⟨some [⟨some "2023-02-02", none, some false, none, []⟩], some "a\n", none⟩
    ⟨some "2023-02-02", none, some false, none, []⟩ (by decide) (by decide)
  exact ⟨h.1, h.2.1, (h.2.2.2.2 (by decide)).1⟩

/-- C10 counterexample: on January 1st, one posted off-date entry and one
unposted "01-01" entry with no `text`: the selected entry's text is
missing and the run fails without dispatch — but the annual reset has
already rewritten the Date-Anchored file, refuting "without mutating any
persisted state". -/
theorem scheduled_empty_text_fails_counterexample :
    (find_scheduled_post_for_today
        ((reset_annual_posts_if_new_year 1 1
          (⟨some [⟨some "2023-02-02", some "x", some true, some "T1", []⟩,
            ⟨some "2024-01-01", none, some false, none, []⟩],
            some "pool\n", none⟩ : Files)).1.scheduled.getD [])
        (monthDayString 1 1)) =
      some ⟨some "2024-01-01", none, some false, none, []⟩ ∧
    (post_next ⟨1, 1, "T", true, true, 0⟩
        ⟨some [⟨some "2023-02-02", some "x", some true, some "T1", []⟩,
          ⟨some "2024-01-01", none, some false, none, []⟩],
          some "pool\n", none⟩).success = false ∧
    (post_next ⟨1, 1, "T", true, true, 0⟩
        ⟨some [⟨some "2023-02-02", some "x", some true, some "T1", []⟩,
          ⟨some "2024-01-01", none, some false, none, []⟩],
          some "pool\n", none⟩).sends = [] ∧
    (post_next ⟨1, 1, "T", true, true, 0⟩
        ⟨some [⟨some "2023-02-02", some "x", some true, some "T1", []⟩,
          ⟨some "2024-01-01", none, some false, none, []⟩],
          some "pool\n", none⟩).writes ≠ [] ∧
    (post_next ⟨1, 1, "T", true, true, 0⟩
        ⟨some [⟨some "2023-02-02", some "x", some true, some "T1", []⟩,
          ⟨some "2024-01-01", none, some false, none, []⟩],
          some "pool\n", none⟩).files ≠
      ⟨some [⟨some "2023-02-02", some "x", some true, some "T1", []⟩,
        ⟨some "2024-01-01", none, some false, none, []⟩],
        some "pool\n", none⟩ := by decide
